import Mathlib

/-!
Shallow embedding of the `startengine_erc1450` Python package.

The package consists of an artifact loader (`artifacts/loader.py`) and two
contract wrappers (`contracts/erc1450.py`, `contracts/rta_proxy.py`).  Python
strings are embedded as `String`, Python `int` as `Int`, Python dicts returned
by the wrappers as Lean structures, and raising `ValueError` /
`FileNotFoundError` as `Except`.  The filesystem consumed by the loader is a
parameter `fs : String → Option Artifact` mapping a relative artifact path to
its parsed content (`None` models a missing file).
-/

namespace ERC1450Ref

/-- Python `s.startswith('0x')`, embedded on the character list of the string
(an empty or one-character string does not start with `'0x'`). -/
def startsWith0x (s : String) : Bool :=
  match s.data with
  | c0 :: c1 :: _ => c0 == '0' && c1 == 'x'
  | _ => false

/-- One entry of a contract ABI: a JSON object whose `type` and `name` keys the
Python code reads with `item.get(...)` (absent keys give `None`), plus the
`inputs` parameter-type list.  Nothing else of the entry is inspected. -/
structure AbiItem where
  type : Option String
  name : Option String
  inputs : List String
deriving DecidableEq

/-- A positional argument forwarded by `prepare_transaction`: the wrappers pass
addresses (strings) and amounts (ints). -/
inductive CallArg where
  | str (s : String)
  | int (i : Int)
deriving DecidableEq

/-- The dict returned by `prepare_transaction`: keys `function`, `args`, `abi`.
Note the source builds exactly these three keys. -/
structure PreparedTx where
  function : String
  args : List CallArg
  abi : AbiItem
deriving DecidableEq

/-- The dict returned by `ERC1450Contract.encode_constructor_params`: keys
`_name`, `_symbol`, `_decimals`, `_totalSupply`, `_rta`. -/
structure TokenConstructorParams where
  _name : String
  _symbol : String
  _decimals : Int
  _totalSupply : Int
  _rta : String
deriving DecidableEq

/-- The dict returned by `RTAProxyContract.encode_constructor_params`: keys
`_signers`, `_requiredSignatures`. -/
structure ProxyConstructorParams where
  _signers : List String
  _requiredSignatures : Int
deriving DecidableEq

namespace ERC1450Contract

/-- `ERC1450Contract.encode_constructor_params` (erc1450.py lines 27-76): the
validation checks in source order, then the returned parameter dict.  Python's
`if not name` on a string is `name = ""`; the address check in the source is
`if not rta_address or not rta_address.startswith('0x')`. -/
def encode_constructor_params (name symbol : String) (decimals total_supply : Int)
    (rta_address : String) : Except String TokenConstructorParams :=
  if name = "" then Except.error "Token name is required"
  else if symbol = "" then Except.error "Token symbol is required"
  else if decimals < 0 ∨ decimals > 18 then Except.error "Decimals must be between 0 and 18"
  else if total_supply ≤ 0 then Except.error "Total supply must be greater than 0"
  else if rta_address = "" ∨ startsWith0x rta_address = false then
    Except.error "Invalid RTA address"
  else if rta_address.length ≠ 42 then Except.error "RTA address must be 42 characters"
  else Except.ok ⟨name, symbol, decimals, total_supply, rta_address⟩

/-- `ERC1450Contract.prepare_transaction` (erc1450.py lines 182-213): linear
scan of the ABI for the first entry with `type == 'function'` and the requested
name; not-found raises; otherwise the dict `{function, args, abi}` is returned.
The source accepts `**kwargs` but never uses them, so the `kwargs` parameter
does not occur in the body. -/
def prepare_transaction (abi : List AbiItem) (function_name : String)
    (args : List CallArg) (kwargs : List (String × CallArg)) : Except String PreparedTx :=
  match abi.find? (fun item => item.type == some "function" && item.name == some function_name) with
  | none => Except.error ("Function " ++ function_name ++ " not found in ABI")
  | some function_abi => Except.ok ⟨function_name, args, function_abi⟩

/-- `ERC1450Contract.prepare_transfer_function` (erc1450.py lines 110-134). -/
def prepare_transfer_function (abi : List AbiItem) (from_address to_address : String)
    (amount : Int) : Except String PreparedTx :=
  prepare_transaction abi "transfer" [CallArg.str from_address, CallArg.str to_address,
    CallArg.int amount] []

/-- `ERC1450Contract.prepare_mint_function` (erc1450.py lines 136-157). -/
def prepare_mint_function (abi : List AbiItem) (to_address : String)
    (amount : Int) : Except String PreparedTx :=
  prepare_transaction abi "mint" [CallArg.str to_address, CallArg.int amount] []

/-- `ERC1450Contract.prepare_burn_function` (erc1450.py lines 159-180). -/
def prepare_burn_function (abi : List AbiItem) (from_address : String)
    (amount : Int) : Except String PreparedTx :=
  prepare_transaction abi "burn" [CallArg.str from_address, CallArg.int amount] []

/-- `ERC1450Contract.estimate_deployment_gas` (erc1450.py lines 249-270). -/
def estimate_deployment_gas (name symbol : String) : Nat :=
  let base_gas := 2000000
  let string_gas := (name.length + symbol.length) * 1000
  base_gas + string_gas

end ERC1450Contract

namespace RTAProxyContract

/-- `RTAProxyContract.encode_constructor_params` (rta_proxy.py lines 27-68): the
validation checks in source order; the duplicate check is Python's
`len(signers) != len(set(signers))`, i.e. the count of distinct elements. -/
def encode_constructor_params (signers : List String) (required_signatures : Int) :
    Except String ProxyConstructorParams :=
  if signers = [] then Except.error "At least one signer is required"
  else if required_signatures ≤ 0 then
    Except.error "Required signatures must be greater than 0"
  else if required_signatures > (signers.length : Int) then
    Except.error ("Required signatures (" ++ toString required_signatures ++
      ") cannot exceed number of signers (" ++ toString signers.length ++ ")")
  else if signers.length ≠ signers.dedup.length then
    Except.error "Duplicate signers not allowed"
  else Except.ok ⟨signers, required_signatures⟩

/-- `RTAProxyContract.prepare_transaction` (rta_proxy.py lines 96-127):
textually the same algorithm as the token wrapper's method, transcribed
separately.  `**kwargs` is accepted but unused in the source. -/
def prepare_transaction (abi : List AbiItem) (function_name : String)
    (args : List CallArg) (kwargs : List (String × CallArg)) : Except String PreparedTx :=
  match abi.find? (fun item => item.type == some "function" && item.name == some function_name) with
  | none => Except.error ("Function " ++ function_name ++ " not found in ABI")
  | some function_abi => Except.ok ⟨function_name, args, function_abi⟩

/-- `RTAProxyContract.validate_signer_configuration` (rta_proxy.py lines
158-189): empty list, bad threshold or duplicates give `False`; then each
signer must start with `'0x'` and have length 42. -/
def validate_signer_configuration (signers : List String) (threshold : Int) : Bool :=
  if signers = [] then false
  else if threshold ≤ 0 ∨ threshold > (signers.length : Int) then false
  else if signers.length ≠ signers.dedup.length then false
  else signers.all (fun signer => startsWith0x signer && signer.length == 42)

/-- `RTAProxyContract.estimate_deployment_gas` (rta_proxy.py lines 191-213):
`required_signatures` is a parameter of the source method but unused. -/
def estimate_deployment_gas (signers : List String) (required_signatures : Int) : Nat :=
  let base_gas := 500000
  let per_signer_gas := 50000
  base_gas + signers.length * per_signer_gas

end RTAProxyContract

namespace Loader

/-- Parsed artifact JSON as far as this package reads it. -/
structure Artifact where
  abi : List AbiItem
  bytecode : String
deriving DecidableEq

/-- The static table `CONTRACT_PATHS` (loader.py lines 25-31), in source
order. -/
def CONTRACT_PATHS : List (String × String) :=
  [("RTAProxy", "RTAProxy.sol/RTAProxy.json"),
   ("ERC1450", "ERC1450.sol/ERC1450.json"),
   ("RTAProxyUpgradeable", "upgradeable/RTAProxyUpgradeable.sol/RTAProxyUpgradeable.json"),
   ("ERC1450Upgradeable", "upgradeable/ERC1450Upgradeable.sol/ERC1450Upgradeable.json"),
   ("IERC1450", "interfaces/IERC1450.sol/IERC1450.json")]

/-- The two failures `load_artifact` can raise: `ValueError` for a name absent
from the table, `FileNotFoundError` for a missing artifact file. -/
inductive LoadError where
  | unknownContract (contract_name : String)
  | artifactFileNotFound (path : String)
deriving DecidableEq

/-- `load_artifact` (loader.py lines 34-64): exact dictionary lookup of the
contract name (no normalization), then a file read modelled by `fs`. -/
def load_artifact (fs : String → Option Artifact) (contract_name : String) :
    Except LoadError Artifact :=
  match (CONTRACT_PATHS.find? (fun p => p.1 == contract_name)).map Prod.snd with
  | none => Except.error (LoadError.unknownContract contract_name)
  | some rel_path =>
    match fs rel_path with
    | none => Except.error (LoadError.artifactFileNotFound rel_path)
    | some artifact => Except.ok artifact

/-- `list_available_contracts` (loader.py lines 161-168). -/
def list_available_contracts : List String := CONTRACT_PATHS.map Prod.fst

/-- The `try/except` body of `validate_artifacts` for one contract name:
`True` when `load_artifact` succeeds, `False` when it raises
`FileNotFoundError` or `ValueError` (the only failures in the model). -/
def artifactStatus (fs : String → Option Artifact) (contract_name : String) : Bool :=
  match load_artifact fs contract_name with
  | Except.ok _ => true
  | Except.error _ => false

/-- `validate_artifacts` (loader.py lines 171-186): one status entry per name
of the static table, in table order (the Python dict preserves it). -/
def validate_artifacts (fs : String → Option Artifact) : List (String × Bool) :=
  CONTRACT_PATHS.map (fun p => (p.1, artifactStatus fs p.1))

/-- A filesystem with no artifact files at all (used to instantiate the
`fs` parameter on concrete inputs). -/
def emptyFs : String → Option Artifact := fun _ => none

end Loader

/-- Sample well-formed address: `0x` followed by 40 hex characters. -/
def addrA : String := "0xaaaaaaaaaaaaaaaaaaaaaaaaaaaaaaaaaaaaaaaa"

/-- Second sample well-formed address. -/
def addrB : String := "0xbbbbbbbbbbbbbbbbbbbbbbbbbbbbbbbbbbbbbbbb"

/-- Third sample well-formed address. -/
def addrC : String := "0xcccccccccccccccccccccccccccccccccccccccc"

/-- A sample ABI entry for the `transfer` function. -/
def transferAbiItem : AbiItem :=
  ⟨some "function", some "transfer", ["address", "address", "uint256"]⟩

/-- The Python duplicate test `len(l) == len(set(l))` holds exactly when the
list has no duplicates. -/
theorem length_eq_dedup_length_iff_nodup {α : Type} [DecidableEq α] (l : List α) :
    l.length = l.dedup.length ↔ l.Nodup := by
  constructor
  · intro h
    have hsub : l.dedup.Sublist l := List.dedup_sublist l
    have heq : l.dedup = l := hsub.eq_of_length h.symm
    rw [← heq]
    exact l.nodup_dedup
  · intro h
    rw [List.dedup_eq_self.mpr h]

/-- C4: `validate_signer_configuration(signers, threshold)` returns `True` iff
the signers list is non-empty and duplicate-free, every signer starts with
`0x` and has length exactly 42, and `1 <= threshold <= len(signers)`; in
particular three unique valid addresses with threshold 2 give `True`, and
threshold 4, a duplicated address, or threshold 0 give `False`. -/
theorem C4_validate_signer_configuration_spec :
    (∀ (signers : List String) (threshold : Int),
      RTAProxyContract.validate_signer_configuration signers threshold = true ↔
        (signers ≠ [] ∧ signers.Nodup ∧
         (∀ s ∈ signers, startsWith0x s = true ∧ s.length = 42) ∧
         1 ≤ threshold ∧ threshold ≤ (signers.length : Int))) ∧
    RTAProxyContract.validate_signer_configuration [addrA, addrB, addrC] 2 = true ∧
    RTAProxyContract.validate_signer_configuration [addrA, addrB, addrC] 4 = false ∧
    RTAProxyContract.validate_signer_configuration [addrA, addrA, addrC] 2 = false ∧
    RTAProxyContract.validate_signer_configuration [addrA, addrB, addrC] 0 = false := by
  refine ⟨?_, by decide, by decide, by decide, by decide⟩
  intro signers threshold
  unfold RTAProxyContract.validate_signer_configuration
  split_ifs with h1 h2 h3
  · simp [h1]
  · constructor
    · intro h
      exact absurd h (by simp)
    · rintro ⟨-, -, -, h4, h5⟩
      rcases h2 with h2 | h2 <;> omega
  · constructor
    · intro h
      exact absurd h (by simp)
    · rintro ⟨-, hnd, -, -, -⟩
      exact h3 ((length_eq_dedup_length_iff_nodup signers).mpr hnd)
  · push_neg at h2
    rw [List.all_eq_true]
    constructor
    · intro hall
      refine ⟨h1, (length_eq_dedup_length_iff_nodup signers).mp (by omega), ?_, by omega, by omega⟩
      intro s hs
      simpa [Bool.and_eq_true] using hall s hs
    · rintro ⟨-, -, hfmt, -, -⟩
      intro s hs
      simp only [Bool.and_eq_true, beq_iff_eq]
      exact hfmt s hs

/-- Witness for C4: the iff instantiated at three concrete valid addresses and
threshold 2, its right-hand side discharged by evaluation. -/
theorem C4_validate_signer_configuration_spec_witness :
    RTAProxyContract.validate_signer_configuration [addrA, addrB, addrC] 2 = true :=
  (C4_validate_signer_configuration_spec.1 [addrA, addrB, addrC] 2).mpr (by decide)

/-- C1: the token wrapper's `encode_constructor_params` succeeds iff none of
the documented validation failures holds (empty name or symbol, decimals
outside 0..18, non-positive total supply, RTA address not starting with `0x`
or not of length 42), and on success it returns exactly the five fields
`_name`, `_symbol`, `_decimals`, `_totalSupply`, `_rta` equal to the
arguments; `decimals = 19` and `total_supply = 0` fail with the respective
range errors. -/
theorem C1_token_encode_constructor_params_spec :
    (∀ (name symbol : String) (decimals total_supply : Int) (rta_address : String),
      ((∃ r, ERC1450Contract.encode_constructor_params name symbol decimals total_supply
          rta_address = Except.ok r) ↔
        ¬(name = "" ∨ symbol = "" ∨ decimals < 0 ∨ decimals > 18 ∨ total_supply ≤ 0 ∨
          startsWith0x rta_address = false ∨ rta_address.length ≠ 42)) ∧
      (∀ r, ERC1450Contract.encode_constructor_params name symbol decimals total_supply
          rta_address = Except.ok r →
        r = ⟨name, symbol, decimals, total_supply, rta_address⟩)) ∧
    ERC1450Contract.encode_constructor_params "T" "T" 19 1 addrA =
      Except.error "Decimals must be between 0 and 18" ∧
    ERC1450Contract.encode_constructor_params "T" "T" 18 0 addrA =
      Except.error "Total supply must be greater than 0" := by
  refine ⟨?_, rfl, rfl⟩
  intro name symbol decimals total_supply rta_address
  unfold ERC1450Contract.encode_constructor_params
  split_ifs with h1 h2 h3 h4 h5 h6
  · exact ⟨iff_of_false (fun ⟨_, hr⟩ => hr)
      (not_not_intro (Or.inl h1)), fun r hr => hr.elim⟩
  · exact ⟨iff_of_false (fun ⟨_, hr⟩ => hr)
      (not_not_intro (Or.inr (Or.inl h2))), fun r hr => hr.elim⟩
  · refine ⟨iff_of_false (fun ⟨_, hr⟩ => hr)
      (not_not_intro ?_), fun r hr => hr.elim⟩
    rcases h3 with h3 | h3
    · exact Or.inr (Or.inr (Or.inl h3))
    · exact Or.inr (Or.inr (Or.inr (Or.inl h3)))
  · exact ⟨iff_of_false (fun ⟨_, hr⟩ => hr)
      (not_not_intro (Or.inr (Or.inr (Or.inr (Or.inr (Or.inl h4)))))),
      fun r hr => hr.elim⟩
  · refine ⟨iff_of_false (fun ⟨_, hr⟩ => hr)
      (not_not_intro ?_), fun r hr => hr.elim⟩
    have hsw : startsWith0x rta_address = false := by
      rcases h5 with h5 | h5
      · rw [h5]
        rfl
      · exact h5
    exact Or.inr (Or.inr (Or.inr (Or.inr (Or.inr (Or.inl hsw)))))
  · exact ⟨iff_of_false (fun ⟨_, hr⟩ => hr)
      (not_not_intro (Or.inr (Or.inr (Or.inr (Or.inr (Or.inr (Or.inr h6))))))),
      fun r hr => hr.elim⟩
  · refine ⟨iff_of_true ⟨⟨name, symbol, decimals, total_supply, rta_address⟩, rfl⟩ ?_,
      fun r hr => by injection hr with h; exact h.symm⟩
    rintro (d | d | d | d | d | d | d)
    · exact h1 d
    · exact h2 d
    · exact h3 (Or.inl d)
    · exact h3 (Or.inr d)
    · exact h4 d
    · exact h5 (Or.inr d)
    · exact h6 d

/-- Witness for C1: the success case evaluated at concrete valid arguments,
the equation hypothesis discharged by computation. -/
theorem C1_token_encode_constructor_params_spec_witness :
    ERC1450Contract.encode_constructor_params "T" "T" 18 1 addrA =
      Except.ok ⟨"T", "T", 18, 1, addrA⟩ ∧
    (⟨"T", "T", 18, 1, addrA⟩ : TokenConstructorParams) = ⟨"T", "T", 18, 1, addrA⟩ := by
  have h : ERC1450Contract.encode_constructor_params "T" "T" 18 1 addrA =
      Except.ok ⟨"T", "T", 18, 1, addrA⟩ := rfl
  exact ⟨h, (C1_token_encode_constructor_params_spec.1 "T" "T" 18 1 addrA).2 ⟨"T", "T", 18, 1, addrA⟩ h⟩

/-- C5: the proxy wrapper's `encode_constructor_params` succeeds iff the
signers list is non-empty and duplicate-free and the required-signatures
threshold lies between 1 and the number of signers; on success it returns the
signers list and the threshold. -/
theorem C5_proxy_encode_constructor_params_spec :
    ∀ (signers : List String) (required_signatures : Int),
      ((∃ r, RTAProxyContract.encode_constructor_params signers required_signatures =
          Except.ok r) ↔
        ¬(signers = [] ∨ required_signatures ≤ 0 ∨
          required_signatures > (signers.length : Int) ∨ ¬ signers.Nodup)) ∧
      (∀ r, RTAProxyContract.encode_constructor_params signers required_signatures =
          Except.ok r → r = ⟨signers, required_signatures⟩) := by
  intro signers required_signatures
  unfold RTAProxyContract.encode_constructor_params
  split_ifs with h1 h2 h3 h4
  · exact ⟨iff_of_false (fun ⟨_, hr⟩ => hr)
      (not_not_intro (Or.inl h1)), fun r hr => hr.elim⟩
  · exact ⟨iff_of_false (fun ⟨_, hr⟩ => hr)
      (not_not_intro (Or.inr (Or.inl h2))), fun r hr => hr.elim⟩
  · exact ⟨iff_of_false (fun ⟨_, hr⟩ => hr)
      (not_not_intro (Or.inr (Or.inr (Or.inl h3)))), fun r hr => hr.elim⟩
  · refine ⟨iff_of_false (fun ⟨_, hr⟩ => hr)
      (not_not_intro ?_), fun r hr => hr.elim⟩
    exact Or.inr (Or.inr (Or.inr
      (fun hn => h4 ((length_eq_dedup_length_iff_nodup signers).mpr hn))))
  · refine ⟨iff_of_true ⟨⟨signers, required_signatures⟩, rfl⟩ ?_,
      fun r hr => by injection hr with h; exact h.symm⟩
    rintro (d | d | d | d)
    · exact h1 d
    · exact h2 d
    · exact h3 d
    · exact d ((length_eq_dedup_length_iff_nodup signers).mp (by omega))

/-- Witness for C5: the success case evaluated at two concrete signers and
threshold 2, the equation hypothesis discharged by computation. -/
theorem C5_proxy_encode_constructor_params_spec_witness :
    RTAProxyContract.encode_constructor_params [addrA, addrB] 2 =
      Except.ok ⟨[addrA, addrB], 2⟩ ∧
    (⟨[addrA, addrB], 2⟩ : ProxyConstructorParams) = ⟨[addrA, addrB], 2⟩ := by
  have h : RTAProxyContract.encode_constructor_params [addrA, addrB] 2 =
      Except.ok ⟨[addrA, addrB], 2⟩ := rfl
  exact ⟨h, (C5_proxy_encode_constructor_params_spec [addrA, addrB] 2).2 ⟨[addrA, addrB], 2⟩ h⟩

/-- Helper: the two wrappers transcribe the same `prepare_transaction`
algorithm, so the embedded functions coincide. -/
theorem proxy_prepare_eq_token_prepare :
    RTAProxyContract.prepare_transaction = ERC1450Contract.prepare_transaction := rfl

/-- Helper: full behaviour of the shared `prepare_transaction` algorithm:
success exactly when a matching function entry exists, the returned record
pairs the first matching descriptor with the positional arguments, and the
result never depends on the keyword arguments. -/
theorem prepare_transaction_core_spec (abi : List AbiItem) (function_name : String)
    (args : List CallArg) (kwargs : List (String × CallArg)) :
    ((∃ t, ERC1450Contract.prepare_transaction abi function_name args kwargs = Except.ok t) ↔
      ∃ item ∈ abi, item.type = some "function" ∧ item.name = some function_name) ∧
    (∀ t, ERC1450Contract.prepare_transaction abi function_name args kwargs = Except.ok t →
      t.function = function_name ∧ t.args = args ∧ t.abi ∈ abi ∧
      t.abi.type = some "function" ∧ t.abi.name = some function_name) ∧
    ERC1450Contract.prepare_transaction abi function_name args kwargs =
      ERC1450Contract.prepare_transaction abi function_name args [] := by
  unfold ERC1450Contract.prepare_transaction
  cases hfind : abi.find? (fun item => item.type == some "function" &&
      item.name == some function_name) with
  | none =>
    have hiff : ¬∃ item ∈ abi, item.type = some "function" ∧
        item.name = some function_name := by
      rintro ⟨item, hmem, htype, hname⟩
      have hno := List.find?_eq_none.mp hfind item hmem
      simp only [Bool.and_eq_true, beq_iff_eq] at hno
      exact hno ⟨htype, hname⟩
    exact ⟨iff_of_false (fun ⟨t, ht⟩ => Except.noConfusion ht) hiff,
      fun t ht => Except.noConfusion ht, rfl⟩
  | some a =>
    have hmem := List.mem_of_find?_eq_some hfind
    have hpred := List.find?_some hfind
    simp only [Bool.and_eq_true, beq_iff_eq] at hpred
    refine ⟨iff_of_true ⟨⟨function_name, args, a⟩, rfl⟩ ⟨a, hmem, hpred.1, hpred.2⟩, ?_, rfl⟩
    intro t ht
    have ht2 : Except.ok (⟨function_name, args, a⟩ : PreparedTx) = Except.ok t := ht
    injection ht2 with h
    rw [← h]
    exact ⟨rfl, rfl, hmem, hpred.1, hpred.2⟩

/-- C3 (amended): for both wrappers, `prepare_transaction` fails iff no ABI
entry with type `function` and the given name exists; otherwise it returns a
record pairing the matched descriptor (whose name field equals the requested
name) with the caller's positional arguments only, performing no validation of
the arguments; keyword arguments are accepted but do not appear in the
result. -/
theorem C3_prepare_transaction_amended_spec :
    (∀ (abi : List AbiItem) (function_name : String) (args : List CallArg)
        (kwargs : List (String × CallArg)),
      ((∃ t, ERC1450Contract.prepare_transaction abi function_name args kwargs =
          Except.ok t) ↔
        ∃ item ∈ abi, item.type = some "function" ∧ item.name = some function_name) ∧
      (∀ t, ERC1450Contract.prepare_transaction abi function_name args kwargs =
          Except.ok t →
        t.function = function_name ∧ t.args = args ∧ t.abi ∈ abi ∧
        t.abi.type = some "function" ∧ t.abi.name = some function_name) ∧
      ERC1450Contract.prepare_transaction abi function_name args kwargs =
        ERC1450Contract.prepare_transaction abi function_name args []) ∧
    (∀ (abi : List AbiItem) (function_name : String) (args : List CallArg)
        (kwargs : List (String × CallArg)),
      ((∃ t, RTAProxyContract.prepare_transaction abi function_name args kwargs =
          Except.ok t) ↔
        ∃ item ∈ abi, item.type = some "function" ∧ item.name = some function_name) ∧
      (∀ t, RTAProxyContract.prepare_transaction abi function_name args kwargs =
          Except.ok t →
        t.function = function_name ∧ t.args = args ∧ t.abi ∈ abi ∧
        t.abi.type = some "function" ∧ t.abi.name = some function_name) ∧
      RTAProxyContract.prepare_transaction abi function_name args kwargs =
        RTAProxyContract.prepare_transaction abi function_name args []) := by
  constructor
  · intro abi function_name args kwargs
    exact prepare_transaction_core_spec abi function_name args kwargs
  · intro abi function_name args kwargs
    rw [proxy_prepare_eq_token_prepare]
    exact prepare_transaction_core_spec abi function_name args kwargs

/-- C3 counterexample: the returned record does not pair the descriptor with
the keyword arguments — a call with a non-empty keyword-argument dict returns
the very same record as the call with none, namely `{function, args, abi}`
with no keyword data in it. -/
theorem C3_prepare_transaction_kwargs_counterexample :
    ERC1450Contract.prepare_transaction [transferAbiItem] "transfer" []
        [("gas", CallArg.int 21000)] =
      ERC1450Contract.prepare_transaction [transferAbiItem] "transfer" [] [] ∧
    RTAProxyContract.prepare_transaction [transferAbiItem] "transfer" []
        [("gas", CallArg.int 21000)] =
      RTAProxyContract.prepare_transaction [transferAbiItem] "transfer" [] [] ∧
    ERC1450Contract.prepare_transaction [transferAbiItem] "transfer" []
        [("gas", CallArg.int 21000)] =
      Except.ok ⟨"transfer", [], transferAbiItem⟩ ∧
    ([("gas", CallArg.int 21000)] : List (String × CallArg)) ≠ [] :=
  ⟨rfl, rfl, rfl, by decide⟩

/-- Witness for C3 (amended): the success case of the token wrapper evaluated
at a one-entry ABI, the equation hypothesis discharged by computation. -/
theorem C3_prepare_transaction_amended_spec_witness :
    ERC1450Contract.prepare_transaction [transferAbiItem] "transfer"
        [CallArg.str addrA, CallArg.str addrB, CallArg.int 5] [] =
      Except.ok ⟨"transfer", [CallArg.str addrA, CallArg.str addrB, CallArg.int 5],
        transferAbiItem⟩ ∧
    (⟨"transfer", [CallArg.str addrA, CallArg.str addrB, CallArg.int 5],
        transferAbiItem⟩ : PreparedTx).function = "transfer" := by
  have h : ERC1450Contract.prepare_transaction [transferAbiItem] "transfer"
      [CallArg.str addrA, CallArg.str addrB, CallArg.int 5] [] =
      Except.ok ⟨"transfer", [CallArg.str addrA, CallArg.str addrB, CallArg.int 5],
        transferAbiItem⟩ := rfl
  exact ⟨h, ((C3_prepare_transaction_amended_spec.1 [transferAbiItem] "transfer"
    [CallArg.str addrA, CallArg.str addrB, CallArg.int 5] []).2.1
    ⟨"transfer", [CallArg.str addrA, CallArg.str addrB, CallArg.int 5],
      transferAbiItem⟩ h).1⟩

/-- C7: both gas estimators are pure functions computing a hard-coded base
constant plus a linear per-unit surcharge: `2000000 + (len(name) +
len(symbol)) * 1000` for the token and `500000 + len(signers) * 50000` for the
proxy, the latter independent of `required_signatures`. -/
theorem C7_estimate_deployment_gas_spec :
    (∀ (name symbol : String),
      ERC1450Contract.estimate_deployment_gas name symbol =
        2000000 + (name.length + symbol.length) * 1000) ∧
    (∀ (signers : List String) (required_signatures : Int),
      RTAProxyContract.estimate_deployment_gas signers required_signatures =
        500000 + signers.length * 50000) ∧
    (∀ (signers : List String) (r1 r2 : Int),
      RTAProxyContract.estimate_deployment_gas signers r1 =
        RTAProxyContract.estimate_deployment_gas signers r2) :=
  ⟨fun _ _ => rfl, fun _ _ => rfl, fun _ _ _ => rfl⟩

/-- C8: the token wrapper's convenience methods are exactly named shortcuts
over `prepare_transaction` with the function names `transfer`, `mint` and
`burn` and the caller's arguments in order. -/
theorem C8_convenience_wrappers_spec :
    (∀ (abi : List AbiItem) (from_address to_address : String) (amount : Int),
      ERC1450Contract.prepare_transfer_function abi from_address to_address amount =
        ERC1450Contract.prepare_transaction abi "transfer"
          [CallArg.str from_address, CallArg.str to_address, CallArg.int amount] []) ∧
    (∀ (abi : List AbiItem) (to_address : String) (amount : Int),
      ERC1450Contract.prepare_mint_function abi to_address amount =
        ERC1450Contract.prepare_transaction abi "mint"
          [CallArg.str to_address, CallArg.int amount] []) ∧
    (∀ (abi : List AbiItem) (from_address : String) (amount : Int),
      ERC1450Contract.prepare_burn_function abi from_address amount =
        ERC1450Contract.prepare_transaction abi "burn"
          [CallArg.str from_address, CallArg.int amount] []) :=
  ⟨fun _ _ _ _ => rfl, fun _ _ _ => rfl, fun _ _ _ => rfl⟩

/-- C9: the proxy's `encode_constructor_params` performs no address-shape
validation: for the signers `[alice, bob]` (not `0x`-prefixed 42-character
strings) and threshold 2 within `1..len(signers)` it succeeds and returns the
signers verbatim, while `validate_signer_configuration` returns `False` on the
same input. -/
theorem C9_proxy_encode_no_address_validation :
    RTAProxyContract.encode_constructor_params ["alice", "bob"] 2 =
      Except.ok ⟨["alice", "bob"], 2⟩ ∧
    RTAProxyContract.validate_signer_configuration ["alice", "bob"] 2 = false ∧
    (1 : Int) ≤ 2 ∧ (2 : Int) ≤ (List.length ["alice", "bob"] : Int) :=
  ⟨rfl, by decide, by decide, by decide⟩

/-- C6: for every name outside the static contract table, `load_artifact`
fails with the unknown-identifier error whatever the filesystem contents;
matching is exact, so the case variant `rtaproxy`, the whitespace variant of
`RTAProxy`, and `erc1450` all fail the same way. -/
theorem C6_load_artifact_unknown_name_spec :
    (∀ (fs : String → Option Loader.Artifact) (contract_name : String),
      contract_name ∉ Loader.list_available_contracts →
      Loader.load_artifact fs contract_name =
        Except.error (Loader.LoadError.unknownContract contract_name)) ∧
    (∀ fs, Loader.load_artifact fs "rtaproxy" =
      Except.error (Loader.LoadError.unknownContract "rtaproxy")) ∧
    (∀ fs, Loader.load_artifact fs "RTAProxy " =
      Except.error (Loader.LoadError.unknownContract "RTAProxy ")) ∧
    (∀ fs, Loader.load_artifact fs "erc1450" =
      Except.error (Loader.LoadError.unknownContract "erc1450")) := by
  refine ⟨?_, fun fs => rfl, fun fs => rfl, fun fs => rfl⟩
  intro fs contract_name hnot
  unfold Loader.load_artifact
  cases hfind : Loader.CONTRACT_PATHS.find? (fun p => p.1 == contract_name) with
  | none => rfl
  | some p =>
    exfalso
    have hmem := List.mem_of_find?_eq_some hfind
    have hpred := List.find?_some hfind
    simp only [beq_iff_eq] at hpred
    exact hnot (hpred ▸ List.mem_map_of_mem Prod.fst hmem)

/-- Witness for C6: the unknown-name case evaluated at the concrete name `Foo`
over an empty filesystem, the non-membership hypothesis discharged by
evaluation. -/
theorem C6_load_artifact_unknown_name_spec_witness :
    ("Foo" ∉ Loader.list_available_contracts) ∧
    Loader.load_artifact Loader.emptyFs "Foo" =
      Except.error (Loader.LoadError.unknownContract "Foo") :=
  ⟨by decide, C6_load_artifact_unknown_name_spec.1 Loader.emptyFs "Foo" (by decide)⟩

/-- Helper: the per-contract status computed by `validate_artifacts` is `True`
exactly on `load_artifact` success and `False` exactly on failure. -/
theorem artifactStatus_spec (fs : String → Option Loader.Artifact) (n : String) :
    (Loader.artifactStatus fs n = true ↔ ∃ a, Loader.load_artifact fs n = Except.ok a) ∧
    (Loader.artifactStatus fs n = false ↔ ∃ e, Loader.load_artifact fs n = Except.error e) := by
  unfold Loader.artifactStatus
  cases h : Loader.load_artifact fs n with
  | ok a =>
    refine ⟨iff_of_true rfl ⟨a, rfl⟩, iff_of_false ?_ ?_⟩
    · show ¬(true = false)
      exact fun hh => Bool.noConfusion hh
    · rintro ⟨e, he⟩
      cases he
  | error e =>
    refine ⟨iff_of_false ?_ ?_, iff_of_true rfl ⟨e, rfl⟩⟩
    · show ¬(false = true)
      exact fun hh => Bool.noConfusion hh
    · rintro ⟨a, ha⟩
      cases ha

/-- C10: `validate_artifacts` never fails: it returns one entry per name of
the static contract table (the same names `list_available_contracts` returns,
in order), mapping each name to `True` when `load_artifact` succeeds for it
and to `False` when `load_artifact` fails with one of its two errors. -/
theorem C10_validate_artifacts_spec :
    ∀ (fs : String → Option Loader.Artifact),
      (Loader.validate_artifacts fs).map Prod.fst = Loader.list_available_contracts ∧
      (∀ (contract_name : String) (b : Bool),
        (contract_name, b) ∈ Loader.validate_artifacts fs →
          ((b = true ↔ ∃ a, Loader.load_artifact fs contract_name = Except.ok a) ∧
           (b = false ↔ ∃ e, Loader.load_artifact fs contract_name = Except.error e))) := by
  intro fs
  refine ⟨rfl, ?_⟩
  intro contract_name b hmem
  simp only [Loader.validate_artifacts, Loader.CONTRACT_PATHS, List.map_cons, List.map_nil,
    List.mem_cons, List.not_mem_nil, or_false] at hmem
  rcases hmem with h | h | h | h | h <;>
    (rw [Prod.mk.injEq] at h; obtain ⟨hn, hb⟩ := h; subst hn; subst hb;
     exact artifactStatus_spec fs _)

/-- Witness for C10: the status entry of `RTAProxy` over an empty filesystem,
the membership hypothesis discharged by evaluation. -/
theorem C10_validate_artifacts_spec_witness :
    (("RTAProxy", false) ∈ Loader.validate_artifacts Loader.emptyFs) ∧
    false = false :=
  ⟨by decide, ((C10_validate_artifacts_spec Loader.emptyFs).2 "RTAProxy" false (by decide)).2.mpr
    ⟨Loader.LoadError.artifactFileNotFound "RTAProxy.sol/RTAProxy.json", rfl⟩⟩

end ERC1450Ref
